import Mathlib

/-!
# Verification of the FastAPI-Exam marketplace core

Shallow embedding of the repository's data model (`src/models/products.py`,
`src/models/reviews.py`, plus the `users` and `categories` tables they
reference) and of the route handlers in `src/routers/reviews.py` and
`src/routers/users.py`.  The SQLAlchemy tables become Lean structures, the
database session becomes an explicit `DB` state, and each handler becomes a
function from its inputs and the current state to an `Except` of the handler's
HTTP error outcome and the new state.  Handlers that issue several `commit()`
calls return every committed state, so that statements about intermediate
durable states can be made.
-/

/-- A row of the `users` table (fields the routers read or write). -/
structure User where
  id : Nat
  email : String
  hashed_password : String
  role : String
  is_active : Bool
deriving DecidableEq, Repr

/-- A row of the `products` table (fields the routers read or write):
`rating` is SQL `Numeric`, embedded as `Rat`. -/
structure Product where
  id : Nat
  seller_id : Nat
  rating : Rat
  is_active : Bool
deriving DecidableEq, Repr

/-- A row of the `reviews` table, from `src/models/reviews.py`. -/
structure Review where
  id : Nat
  user_id : Nat
  product_id : Nat
  comment : Option String
  grade : Int
  is_active : Bool
deriving DecidableEq, Repr

/-- A row of the `categories` table (only the columns `delete_user` touches). -/
structure Category where
  id : Nat
  admin_id : Nat
  is_active : Bool
deriving DecidableEq, Repr

/-- The relational store shared by all handlers. -/
structure DB where
  users : List User
  products : List Product
  reviews : List Review
  categories : List Category
deriving DecidableEq, Repr

/-- HTTP error outcomes the handlers raise. -/
inductive HErr where
  | notFound
  | forbidden
  | unauthorized
deriving DecidableEq, Repr

/-- Sum of a list of grades. -/
def intSum (l : List Int) : Int := l.foldl (· + ·) 0

/-- Grades of the active reviews of product `pid`:
the rows selected by `WHERE product_id == pid AND is_active == True`. -/
def activeGrades (db : DB) (pid : Nat) : List Int :=
  (db.reviews.filter (fun r => r.product_id == pid && r.is_active)).map
    (fun r => r.grade)

/-- SQL `AVG`: `NULL` (`none`) on the empty set, else the mean. -/
def sqlAvg (l : List Int) : Option Rat :=
  if l.isEmpty then none
  else some ((intSum l : Rat) / (l.length : Rat))

/-- The rating the handlers store: `(await db.scalar(stmt1)) or 0.0`,
i.e. the average grade with `NULL` collapsed to `0`. -/
def avgOrZero (db : DB) (pid : Nat) : Rat :=
  ((sqlAvg (activeGrades db pid)).getD 0)

/-- The spec's words for the rating (claim side, for comparison with
`avgOrZero`): "the arithmetic mean of grade over all reviews with that
product_id and is_active = true", "0 when that set is empty". -/
def meanOrZero (db : DB) (pid : Nat) : Rat :=
  let gs := activeGrades db pid
  if gs.isEmpty then 0 else (intSum gs : Rat) / (gs.length : Rat)

theorem avgOrZero_eq_meanOrZero (db : DB) (pid : Nat) :
    avgOrZero db pid = meanOrZero db pid := by
  unfold avgOrZero meanOrZero sqlAvg
  by_cases h : (activeGrades db pid).isEmpty <;> simp [h]

/-- Autoincrement primary key for a new review row. -/
def freshReviewId (db : DB) : Nat :=
  (db.reviews.map (fun r => r.id)).foldr max 0 + 1

/-- `GET /reviews/`: `SELECT * FROM reviews WHERE is_active == True`. -/
def get_reviews (db : DB) : List Review :=
  db.reviews.filter (fun r => r.is_active)

/-- `GET /reviews/products/{product_id}/reviews/`: 404 unless the product
exists and is active, else the product's active reviews. -/
def get_reviews_by_product (pid : Nat) (db : DB) : Except HErr (List Review) :=
  match db.products.find? (fun p => p.id == pid && p.is_active) with
  | none => .error .notFound
  | some _ => .ok (db.reviews.filter (fun r => r.product_id == pid && r.is_active))

/-- Success path of `create_review`, after the product-existence check:
insert the new active review (first `commit`), then store the recomputed
average into the product row (second `commit`).  Returns the final state and
the created review. -/
def create_review_body (cu : User) (pid : Nat) (grade : Int)
    (comment : Option String) (db : DB) : DB × Review :=
  let new_review : Review :=
    { id := freshReviewId db, user_id := cu.id, product_id := pid
      comment := comment, grade := grade, is_active := true }
  let db1 : DB := { db with reviews := db.reviews ++ [new_review] }
  let avg_rating := avgOrZero db1 pid
  let prods := db1.products.map
    (fun p => if p.id == pid then { p with rating := avg_rating } else p)
  let db2 : DB := { db1 with products := prods }
  (db2, new_review)

/-- `POST /reviews/` (`create_review` in `src/routers/reviews.py`): the
resolved buyer principal is `cu`; 404 when no active product has id `pid`. -/
def create_review (cu : User) (pid : Nat) (grade : Int)
    (comment : Option String) (db : DB) : Except HErr (DB × Review) :=
  match db.products.find? (fun p => p.id == pid && p.is_active) with
  | none => .error .notFound
  | some _ => .ok (create_review_body cu pid grade comment db)

/-- Success path of `delete_review`, after the lookup and permission checks.
The handler issues two `commit()` calls: the first makes the review's
deactivation durable, the second makes the recomputed rating durable.  Both
committed states are returned, first commit then second, plus the returned
review row (read before the update). -/
def delete_review_body (rid : Nat) (review : Review) (db : DB) :
    DB × DB × Review :=
  let revs := db.reviews.map
    (fun r => if r.id == rid then { r with is_active := false } else r)
  let db1 : DB := { db with reviews := revs }
  let avg_rating := avgOrZero db1 review.product_id
  let prods := db1.products.map
    (fun p => if p.id == review.product_id then { p with rating := avg_rating } else p)
  let db2 : DB := { db1 with products := prods }
  (db1, db2, review)

/-- `DELETE /reviews/{review_id}` (`delete_review` in
`src/routers/reviews.py`): 404 when no active review has id `rid`; 403 unless
the principal is a buyer or admin; 403 when a buyer retracts someone
else's review. -/
def delete_review (cu : User) (rid : Nat) (db : DB) :
    Except HErr (DB × DB × Review) :=
  match db.reviews.find? (fun r => r.id == rid && r.is_active) with
  | none => .error .notFound
  | some review =>
    if !(cu.role == "buyer" || cu.role == "admin") then .error .forbidden
    else if cu.role == "buyer" && cu.id != review.user_id then .error .forbidden
    else .ok (delete_review_body rid review db)

/-- The claim set carried by a signed token.  The handlers read the claims
through `payload.get(...)`, which yields `None` for an absent claim, hence the
`Option` fields.  `uid` embeds the `"id"` claim. -/
structure TokenClaims where
  sub : Option String
  role : Option String
  uid : Option Nat
  token_type : Option String
deriving DecidableEq, Repr

/-- Outcome of verifying a token's signature and expiry. -/
inductive TokenStatus where
  | ok
  | expired
  | badSignature
deriving DecidableEq, Repr

/-- A presented token, abstracted as its claim set together with what
signature/expiry verification will say about it. -/
structure Token where
  claims : TokenClaims
  status : TokenStatus
deriving DecidableEq, Repr

/-- Result of `jwt.decode`: the payload, or the exception it raises. -/
inductive DecodeResult where
  | valid (claims : TokenClaims)
  | expiredSig
  | invalid
deriving DecidableEq, Repr

/-- `jwt.decode(token, SECRET_KEY, algorithms=[ALGORITHM])`:
`ExpiredSignatureError` past expiry, `PyJWTError` on a bad signature,
else the claim set. -/
def jwt_decode (t : Token) : DecodeResult :=
  match t.status with
  | .ok => .valid t.claims
  | .expired => .expiredSig
  | .badSignature => .invalid

/-- Modelled from the spec: `create_refresh_token` lives in `app/auth.py`,
which is not among the provided sources.  Per spec section 4.2 it signs the
given `{sub, role, id}` data together with the `token_type = "refresh"`
discriminator and a fresh expiry. -/
def create_refresh_token (sub role : String) (uid : Nat) : Token :=
  { claims := { sub := some sub, role := some role, uid := some uid
                token_type := some "refresh" }
    status := .ok }

/-- Modelled from the spec: `create_access_token` lives in `app/auth.py`,
which is not among the provided sources.  Per spec section 4.2 it signs the
given `{sub, role, id}` data together with the `token_type = "access"`
discriminator and a fresh expiry. -/
def create_access_token (sub role : String) (uid : Nat) : Token :=
  { claims := { sub := some sub, role := some role, uid := some uid
                token_type := some "access" }
    status := .ok }

/-- Modelled from the spec: `get_current_user` lives in `app/auth.py`, which
is not among the provided sources.  Per spec section 4.3 and invariant I3 the
Authorization Guard decodes the presented bearer token, accepts only
access-kind tokens, resolves the active account named by the `sub` claim, and
fails with `Unauthenticated` (401) otherwise. -/
def get_current_user_op (tok : Token) (db : DB) : Except HErr User :=
  match jwt_decode tok with
  | .expiredSig => .error .unauthorized
  | .invalid => .error .unauthorized
  | .valid payload =>
    if payload.token_type != some "access" then .error .unauthorized
    else
      match payload.sub with
      | none => .error .unauthorized
      | some email =>
        match db.users.find? (fun u => u.email == email && u.is_active) with
        | none => .error .unauthorized
        | some user => .ok user

/-- `POST /users/refresh-token` (`refresh_token` in `src/routers/users.py`):
decode the presented refresh token (401 on expiry or bad signature), require
the `sub` claim present and `token_type == "refresh"`, require an active
account with that email, then mint a new refresh token from the account's
data. -/
def refresh_token_op (body : Token) (db : DB) : Except HErr Token :=
  match jwt_decode body with
  | .expiredSig => .error .unauthorized
  | .invalid => .error .unauthorized
  | .valid payload =>
    match payload.sub with
    | none => .error .unauthorized
    | some email =>
      if payload.token_type != some "refresh" then .error .unauthorized
      else
        match db.users.find? (fun u => u.email == email && u.is_active) with
        | none => .error .unauthorized
        | some user => .ok (create_refresh_token user.email user.role user.id)

/-- `POST /users/accsess-token` (`get_new_access_token` in
`src/routers/users.py`): decode the refresh token (the `except PyJWTError`
catches the expired case too), require `token_type == "refresh"` and an `id`
claim, require an active account with that id, then mint a new access token
from the account's data. -/
def get_new_access_token_op (body : Token) (db : DB) : Except HErr Token :=
  match jwt_decode body with
  | .expiredSig => .error .unauthorized
  | .invalid => .error .unauthorized
  | .valid payload =>
    if payload.token_type != some "refresh" then .error .unauthorized
    else
      match payload.uid with
      | none => .error .unauthorized
      | some uid =>
        match db.users.find? (fun u => u.id == uid && u.is_active) with
        | none => .error .unauthorized
        | some user => .ok (create_access_token user.email user.role user.id)

/-- Modelled from the spec: `hash_password` lives in `app/auth.py`, which is
not among the provided sources.  Spec section 4.1 specifies a salted one-way
digest; the embedding keeps only its functional shape, a deterministic digest
of the secret. -/
def hash_password (s : String) : String := "digest$" ++ s

/-- `GET /users/` (`get_all_users` in `src/routers/users.py`):
`SELECT * FROM users`, with no `is_active` filter. -/
def get_all_users (db : DB) : List User :=
  db.users

/-- `PUT /users/{user_id}` (`update_user` in `src/routers/users.py`).  The
handler declares no authentication dependency: its inputs are just the path
id and the request body, so this function takes no token or principal.  404
when no user row has id `uid` (active or not); otherwise the row's email,
hashed password and role are replaced and the refreshed row returned. -/
def update_user (uid : Nat) (email password role : String) (db : DB) :
    Except HErr (DB × User) :=
  match db.users.find? (fun u => u.id == uid) with
  | none => .error .notFound
  | some db_user =>
    let usrs := db.users.map (fun u =>
      if u.id == uid then
        { u with email := email, hashed_password := hash_password password
                 role := role }
      else u)
    let db1 : DB := { db with users := usrs }
    let refreshed : User :=
      { db_user with email := email, hashed_password := hash_password password
                     role := role }
    .ok (db1, refreshed)

/-- Success path of `delete_user`: mark the account inactive, then run the
role cascade (three independent `if` branches on the target's role), all
within the single `commit()` at the end of the handler. -/
def delete_user_cascade (uid : Nat) (user : User) (db : DB) : DB :=
  let usrs := db.users.map
    (fun u => if u.id == uid then { u with is_active := false } else u)
  let db1 : DB := { db with users := usrs }
  let db2 : DB :=
    if user.role == "seller" then
      let prods := db1.products.map
        (fun p => if p.seller_id == uid then { p with is_active := false } else p)
      { db1 with products := prods }
    else db1
  let db3 : DB :=
    if user.role == "buyer" then
      let revs := db2.reviews.map
        (fun r => if r.user_id == uid then { r with is_active := false } else r)
      { db2 with reviews := revs }
    else db2
  let db4 : DB :=
    if user.role == "admin" then
      let cats := db3.categories.map
        (fun c => if c.admin_id == uid then { c with is_active := false } else c)
      { db3 with categories := cats }
    else db3
  db4

/-- `DELETE /users/{user_id}` (`delete_user` in `src/routers/users.py`):
403 unless the principal is an admin or the account's owner; 404 when no user
row has id `uid`; else deactivate the account and cascade by role. -/
def delete_user (cu : User) (uid : Nat) (db : DB) : Except HErr (DB × User) :=
  if cu.role != "admin" && cu.id != uid then .error .forbidden
  else
    match db.users.find? (fun u => u.id == uid) with
    | none => .error .notFound
    | some user =>
      .ok (delete_user_cascade uid user db, { user with is_active := false })

/-! ## Inversion lemmas for handler success -/

deriving instance DecidableEq for Except

theorem create_review_ok {cu : User} {pid : Nat} {g : Int} {c : Option String}
    {db : DB} {x : DB × Review} (h : create_review cu pid g c db = .ok x) :
    x = create_review_body cu pid g c db := by
  unfold create_review at h
  split at h
  · exact absurd h (by simp)
  · exact (Except.ok.inj h).symm

theorem delete_review_ok {cu : User} {rid : Nat} {db : DB}
    {x : DB × DB × Review} (h : delete_review cu rid db = .ok x) :
    ∃ review, db.reviews.find? (fun r => r.id == rid && r.is_active) = some review ∧
      x = delete_review_body rid review db := by
  unfold delete_review at h
  split at h
  · exact absurd h (by simp)
  · rename_i review hf
    split at h
    · exact absurd h (by simp)
    · split at h
      · exact absurd h (by simp)
      · exact ⟨review, hf, (Except.ok.inj h).symm⟩

theorem delete_user_ok {cu : User} {uid : Nat} {db : DB}
    {x : DB × User} (h : delete_user cu uid db = .ok x) :
    ∃ user, db.users.find? (fun u => u.id == uid) = some user ∧
      x = (delete_user_cascade uid user db, { user with is_active := false }) := by
  unfold delete_user at h
  split at h
  · exact absurd h (by simp)
  · split at h
    · exact absurd h (by simp)
    · rename_i user hf
      exact ⟨user, hf, (Except.ok.inj h).symm⟩

/-- Every product in the rating-update write set whose id matches gets
exactly the recomputed average. -/
theorem rating_after_update (l : List Product) (pid : Nat) (avg : Rat) :
    ∀ p ∈ l.map (fun p => if p.id == pid then { p with rating := avg } else p),
      p.id = pid → p.rating = avg := by
  intro p hp hid
  simp only [List.mem_map] at hp
  obtain ⟨q, hq, rfl⟩ := hp
  by_cases h : q.id == pid
  · simp [h]
  · rw [if_neg h] at hid ⊢
    exact absurd (by exact beq_iff_eq.mpr hid) h

/-- `meanOrZero` reads only the reviews. -/
theorem meanOrZero_congr {db db2 : DB} (pid : Nat)
    (h : db.reviews = db2.reviews) : meanOrZero db pid = meanOrZero db2 pid := by
  unfold meanOrZero activeGrades
  rw [h]

/-- **C1.** After a successful `create_review` or `delete_review` for a
product, the product's `rating` column equals the arithmetic mean of `grade`
over the reviews with that `product_id` and `is_active = true` (and
`meanOrZero` is `0` by definition when that set is empty). -/
theorem c1_rating_mean_after_create_and_delete :
    (∀ (cu : User) (pid : Nat) (g : Int) (c : Option String) (db db2 : DB)
        (rev : Review), create_review cu pid g c db = .ok (db2, rev) →
        ∀ p ∈ db2.products, p.id = pid → p.rating = meanOrZero db2 pid) ∧
    (∀ (cu : User) (rid : Nat) (db db1 db2 : DB) (rev : Review),
        delete_review cu rid db = .ok (db1, db2, rev) →
        ∀ p ∈ db2.products, p.id = rev.product_id →
          p.rating = meanOrZero db2 rev.product_id) := by
  constructor
  · intro cu pid g c db db2 rev hok p hp hid
    have hb := create_review_ok hok
    have hdb2 : db2 = (create_review_body cu pid g c db).1 := by
      rw [← hb]
    subst hdb2
    unfold create_review_body at hp ⊢
    have := rating_after_update _ pid _ p hp hid
    rw [this, avgOrZero_eq_meanOrZero]
    exact meanOrZero_congr pid rfl
  · intro cu rid db db1 db2 rev hok p hp hid
    obtain ⟨review, hf, hb⟩ := delete_review_ok hok
    have hrev : rev = (delete_review_body rid review db).2.2 :=
      congrArg (fun x => x.2.2) hb
    have hdb2 : db2 = (delete_review_body rid review db).2.1 :=
      congrArg (fun x => x.2.1) hb
    have hrev2 : rev = review := hrev.trans rfl
    subst hrev2 hdb2
    unfold delete_review_body at hp ⊢
    have := rating_after_update _ rev.product_id _ p hp hid
    rw [this, avgOrZero_eq_meanOrZero]
    exact meanOrZero_congr rev.product_id rfl

/-! Concrete rows and states used by the closed witness statements. -/

def buyerW : User := { id := 1, email := "b@x", hashed_password := "h",
                       role := "buyer", is_active := true }

def prodW : Product := { id := 1, seller_id := 2, rating := 0, is_active := true }

def dbW : DB := { users := [buyerW], products := [prodW], reviews := [],
                  categories := [] }

def revW : Review := { id := 1, user_id := 1, product_id := 1, comment := none,
                       grade := 5, is_active := true }

def dbWafter : DB :=
  { users := [buyerW],
    products := [{ id := 1, seller_id := 2, rating := 5, is_active := true }],
    reviews := [revW], categories := [] }

theorem c1_witness :
    ({ id := 1, seller_id := 2, rating := 5, is_active := true } : Product).rating
      = meanOrZero dbWafter 1 :=
  c1_rating_mean_after_create_and_delete.1 buyerW 1 5 none dbW dbWafter revW
    (by norm_num [create_review, create_review_body, freshReviewId, avgOrZero,
      sqlAvg, activeGrades, intSum, dbW, dbWafter, buyerW, prodW, revW])
    _ (by simp [dbWafter]) rfl

/-! ## C2, C3: states exhibiting the missing fan-out and the two-commit gap -/

def adminW : User := { id := 2, email := "a@x", hashed_password := "h",
                       role := "admin", is_active := true }

/-- Product 1, owned by seller 3, whose rating 5 comes from the single active
review `revW` (grade 5). -/
def prodRated : Product := { id := 1, seller_id := 3, rating := 5,
                             is_active := true }

def revWoff : Review := { revW with is_active := false }

def dbC2 : DB := { users := [buyerW, adminW], products := [prodRated],
                   reviews := [revW], categories := [] }

def dbC2after : DB :=
  { users := [{ buyerW with is_active := false }, adminW],
    products := [prodRated], reviews := [revWoff], categories := [] }

/-- **C2.** Evaluation of `delete_user` at the failing input: the admin
deactivates buyer 1, who authored the only active review (grade 5) of
product 1.  The cascade marks the review inactive, but the product keeps its
stale rating 5, while the mean over the now-empty active review set is 0 —
`delete_user` never invokes the rating recomputation. -/
theorem c2_stale_rating_after_buyer_deactivation :
    delete_user adminW 1 dbC2
        = .ok (dbC2after, { buyerW with is_active := false }) ∧
      dbC2after.reviews = [revWoff] ∧ revWoff.is_active = false ∧
      dbC2after.products = [prodRated] ∧ prodRated.rating = 5 ∧
      meanOrZero dbC2after 1 = 0 := by
  refine ⟨by decide, rfl, rfl, rfl, rfl, by decide⟩

def dbC3 : DB := { users := [buyerW], products := [prodRated],
                   reviews := [revW], categories := [] }

def dbC3mid : DB := { users := [buyerW], products := [prodRated],
                      reviews := [revWoff], categories := [] }

def dbC3fin : DB :=
  { users := [buyerW],
    products := [{ prodRated with rating := 0 }],
    reviews := [revWoff], categories := [] }

/-- **C3.** Evaluation of `delete_review` at the failing input: buyer 1
retracts review 1, the only active review (grade 5) of product 1.  The
handler's first `commit()` produces the durable state `dbC3mid`, in which the
review is already inactive but the product still carries rating 5, though the
mean over the active review set of `dbC3mid` is 0; only the second `commit()`
(state `dbC3fin`) stores the recomputed rating.  The retraction and the
recomputation are therefore not one atomic unit. -/
theorem c3_committed_state_between_retraction_and_recompute :
    delete_review buyerW 1 dbC3 = .ok (dbC3mid, dbC3fin, revW) ∧
      dbC3mid.reviews = [revWoff] ∧ revWoff.is_active = false ∧
      dbC3mid.products = [prodRated] ∧ prodRated.rating = 5 ∧
      meanOrZero dbC3mid 1 = 0 := by
  refine ⟨by decide, rfl, rfl, rfl, rfl, by decide⟩

/-- **C4.** Frame of the `delete_user` cascade on products: when the deleted
account is a seller, exactly its own products are marked inactive (all other
columns and all other sellers' products unchanged); when it is a buyer or an
admin (any non-seller role), the product table is untouched. -/
theorem c4_seller_cascade_products_frame (cu : User) (uid : Nat)
    (db db2 : DB) (ret target : User)
    (hfind : db.users.find? (fun u => u.id == uid) = some target)
    (hok : delete_user cu uid db = .ok (db2, ret)) :
    (target.role = "seller" →
       db2.products = db.products.map
         (fun p => if p.seller_id == uid then { p with is_active := false }
                   else p)) ∧
    (target.role ≠ "seller" → db2.products = db.products) := by
  obtain ⟨user, hf, hx⟩ := delete_user_ok hok
  rw [hfind] at hf
  have huser : user = target := (Option.some.inj hf).symm
  subst huser
  have hdb2 : db2 = delete_user_cascade uid user db := congrArg Prod.fst hx
  subst hdb2
  constructor
  · intro hrole
    simp [delete_user_cascade, hrole]
  · intro hrole
    have h1 : (user.role == "seller") = false := by
      simpa using hrole
    by_cases h2 : user.role = "buyer" <;>
      by_cases h3 : user.role = "admin" <;>
        simp [delete_user_cascade, h1, h2, h3]

def sellerW : User := { id := 3, email := "s@x", hashed_password := "h",
                        role := "seller", is_active := true }

def dbC4 : DB :=
  { users := [sellerW],
    products := [{ id := 1, seller_id := 3, rating := 0, is_active := true },
                 { id := 2, seller_id := 4, rating := 0, is_active := true }],
    reviews := [], categories := [] }

def dbC4after : DB :=
  { users := [{ sellerW with is_active := false }],
    products := [{ id := 1, seller_id := 3, rating := 0, is_active := false },
                 { id := 2, seller_id := 4, rating := 0, is_active := true }],
    reviews := [], categories := [] }

theorem c4_witness :
    dbC4after.products = dbC4.products.map
      (fun p => if p.seller_id == 3 then { p with is_active := false }
                else p) :=
  (c4_seller_cascade_products_frame sellerW 3 dbC4 dbC4after
      { sellerW with is_active := false } sellerW (by decide) (by decide)).1 rfl

/-- **C5.** Token kind separation for validly signed, unexpired tokens: any
token whose `token_type` claim is not `"refresh"` is rejected (401) by both
token-refresh operations, and a `"refresh"`-kind token is rejected by the
Authorization Guard that every access-token-protected operation depends on. -/
theorem c5_token_kind_separation (tok : Token) (db : DB)
    (hv : tok.status = TokenStatus.ok) :
    (tok.claims.token_type ≠ some "refresh" →
       refresh_token_op tok db = .error .unauthorized ∧
       get_new_access_token_op tok db = .error .unauthorized) ∧
    (tok.claims.token_type = some "refresh" →
       get_current_user_op tok db = .error .unauthorized) := by
  constructor
  · intro ht
    have ht2 : (tok.claims.token_type != some "refresh") = true := by
      simpa using ht
    refine ⟨?_, ?_⟩
    · cases hs : tok.claims.sub with
      | none => simp [refresh_token_op, jwt_decode, hv, hs]
      | some email => simp [refresh_token_op, jwt_decode, hv, hs, ht2]
    · simp [get_new_access_token_op, jwt_decode, hv, ht2]
  · intro ht
    simp [get_current_user_op, jwt_decode, hv, ht]

def tokC5 : Token :=
  { claims := { sub := some "b@x", role := some "buyer", uid := some 1
                token_type := some "access" }
    status := .ok }

theorem c5_witness :
    refresh_token_op tokC5 dbW = .error .unauthorized ∧
      get_new_access_token_op tokC5 dbW = .error .unauthorized :=
  (c5_token_kind_separation tokC5 dbW rfl).1 (by decide)

/-- **C6.** Refresh rotation and access renewal re-check account liveness at
call time.  For a validly signed, unexpired refresh token whose claims are the
ones minted for account `user` (`sub`, `role`, `id`): when the account is
found active, `refresh_token` returns a fresh refresh token and
`get_new_access_token` a fresh access token, both carrying the same subject,
role and account id as the presented token; when every stored user with that
email (resp. id) is inactive — which covers an absent account — both
operations fail with 401 despite the token's valid signature and expiry. -/
theorem c6_rotation_requires_active_account (tok : Token) (db : DB)
    (user : User)
    (hv : tok.status = TokenStatus.ok)
    (ht : tok.claims.token_type = some "refresh")
    (hs : tok.claims.sub = some user.email)
    (hr : tok.claims.role = some user.role)
    (hi : tok.claims.uid = some user.id) :
    ((db.users.find? (fun u => u.email == user.email && u.is_active)
          = some user →
        refresh_token_op tok db
          = .ok (create_refresh_token user.email user.role user.id) ∧
        (create_refresh_token user.email user.role user.id).claims.sub
          = tok.claims.sub ∧
        (create_refresh_token user.email user.role user.id).claims.role
          = tok.claims.role ∧
        (create_refresh_token user.email user.role user.id).claims.uid
          = tok.claims.uid) ∧
     ((∀ u ∈ db.users, u.email = user.email → u.is_active = false) →
        refresh_token_op tok db = .error .unauthorized)) ∧
    ((db.users.find? (fun u => u.id == user.id && u.is_active) = some user →
        get_new_access_token_op tok db
          = .ok (create_access_token user.email user.role user.id) ∧
        (create_access_token user.email user.role user.id).claims.sub
          = tok.claims.sub ∧
        (create_access_token user.email user.role user.id).claims.role
          = tok.claims.role ∧
        (create_access_token user.email user.role user.id).claims.uid
          = tok.claims.uid) ∧
     ((∀ u ∈ db.users, u.id = user.id → u.is_active = false) →
        get_new_access_token_op tok db = .error .unauthorized)) := by
  refine ⟨⟨?_, ?_⟩, ⟨?_, ?_⟩⟩
  · intro hfind
    simp [refresh_token_op, jwt_decode, hv, hs, ht, hfind,
      create_refresh_token, hr, hi]
  · intro hnone
    have hf : db.users.find? (fun u => u.email == user.email && u.is_active)
        = none := by
      rw [List.find?_eq_none]
      intro u hu
      by_cases he : u.email = user.email
      · simp [hnone u hu he]
      · simp [he]
    simp [refresh_token_op, jwt_decode, hv, hs, ht, hf]
  · intro hfind
    simp [get_new_access_token_op, jwt_decode, hv, hi, ht, hfind,
      create_access_token, hs, hr]
  · intro hnone
    have hf : db.users.find? (fun u => u.id == user.id && u.is_active)
        = none := by
      rw [List.find?_eq_none]
      intro u hu
      by_cases he : u.id = user.id
      · simp [hnone u hu he]
      · simp [he]
    simp [get_new_access_token_op, jwt_decode, hv, hi, ht, hf]

def tokC6 : Token :=
  { claims := { sub := some "b@x", role := some "buyer", uid := some 1
                token_type := some "refresh" }
    status := .ok }

theorem c6_witness :
    refresh_token_op tokC6 dbW = .ok (create_refresh_token "b@x" "buyer" 1) ∧
      get_new_access_token_op tokC6 dbW
        = .ok (create_access_token "b@x" "buyer" 1) :=
  ⟨((c6_rotation_requires_active_account tokC6 dbW buyerW rfl rfl rfl rfl
      rfl).1.1 (by decide)).1,
   ((c6_rotation_requires_active_account tokC6 dbW buyerW rfl rfl rfl rfl
      rfl).2.1 (by decide)).1⟩

/-! ## C7: read paths and inactive rows -/

def userOff : User := { id := 9, email := "off@x", hashed_password := "h",
                        role := "buyer", is_active := false }

def dbC7 : DB := { users := [userOff], products := [], reviews := [],
                   categories := [] }

/-- **C7 counterexample.** `get_all_users` runs `SELECT *` over the users
table with no `is_active` filter: on a store whose only user is inactive, the
user-list endpoint returns that inactive record, so not every read path
excludes inactive records. -/
theorem c7_counterexample_inactive_user_listed :
    get_all_users dbC7 = [userOff] ∧ userOff.is_active = false :=
  ⟨rfl, rfl⟩

/-- **C7 (amended).** The review read endpoints exclude inactive records —
`get_reviews` and `get_reviews_by_product` return only reviews with
`is_active = true` — but the user list endpoint applies no such filter and
returns every stored user, inactive ones included. -/
theorem c7_review_reads_filtered_user_list_not (db : DB) (pid : Nat) :
    (∀ r ∈ get_reviews db, r.is_active = true) ∧
    (∀ rs, get_reviews_by_product pid db = .ok rs →
        ∀ r ∈ rs, r.is_active = true) ∧
    get_all_users db = db.users := by
  refine ⟨?_, ?_, rfl⟩
  · intro r hr
    exact (List.mem_filter.mp hr).2
  · intro rs hok r hr
    unfold get_reviews_by_product at hok
    split at hok
    · exact absurd hok (by simp)
    · have hrs : rs = db.reviews.filter
          (fun r => r.product_id == pid && r.is_active) :=
        (Except.ok.inj hok).symm
      subst hrs
      have hp := (List.mem_filter.mp hr).2
      simp only [Bool.and_eq_true] at hp
      exact hp.2

theorem c7_witness :
    revW.is_active = true ∧ get_all_users dbWafter = dbWafter.users :=
  ⟨(c7_review_reads_filtered_user_list_not dbWafter 1).1 revW (by decide),
   (c7_review_reads_filtered_user_list_not dbWafter 1).2.2⟩

/-! ## C8: frame of delete_review -/

/-- **C8.** A successful `delete_review` leaves the users and categories
tables untouched, preserves the review table row-for-row — every review keeps
its `product_id`, `user_id`, `grade` and `comment`, and every review other
than the target is entirely unchanged — and in the product table changes at
most the `rating` column of the rows with the retracted review's product id,
leaving every other product entirely unchanged. -/
theorem c8_delete_review_frame (cu : User) (rid : Nat) (db db1 db2 : DB)
    (rev : Review) (hok : delete_review cu rid db = .ok (db1, db2, rev)) :
    db2.users = db.users ∧ db2.categories = db.categories ∧
    db2.reviews.length = db.reviews.length ∧
    (∀ i (h : i < db.reviews.length) (h2 : i < db2.reviews.length),
       (db2.reviews[i]).product_id = (db.reviews[i]).product_id ∧
       (db2.reviews[i]).user_id = (db.reviews[i]).user_id ∧
       (db2.reviews[i]).grade = (db.reviews[i]).grade ∧
       (db2.reviews[i]).comment = (db.reviews[i]).comment ∧
       ((db.reviews[i]).id ≠ rid → db2.reviews[i] = db.reviews[i])) ∧
    db2.products.length = db.products.length ∧
    (∀ i (h : i < db.products.length) (h2 : i < db2.products.length),
       ((db.products[i]).id ≠ rev.product_id →
          db2.products[i] = db.products[i]) ∧
       ((db.products[i]).id = rev.product_id →
          db2.products[i] =
            { db.products[i] with rating := (db2.products[i]).rating })) := by
  obtain ⟨review, hf, hb⟩ := delete_review_ok hok
  have hrev : rev = review :=
    (congrArg (fun x => x.2.2) hb).trans rfl
  subst hrev
  have hdb2 : db2 = (delete_review_body rid rev db).2.1 :=
    congrArg (fun x => x.2.1) hb
  subst hdb2
  refine ⟨rfl, rfl, by simp [delete_review_body], ?_,
    by simp [delete_review_body], ?_⟩
  · intro i h h2
    simp only [delete_review_body] at h2 ⊢
    rw [List.getElem_map]
    by_cases hid : ((db.reviews[i]).id == rid)
    · refine ⟨?_, ?_, ?_, ?_, fun hne => absurd (beq_iff_eq.mp hid) hne⟩ <;>
        simp [hid]
    · refine ⟨?_, ?_, ?_, ?_, fun hne => ?_⟩ <;> simp [hid]
  · intro i h h2
    simp only [delete_review_body] at h2 ⊢
    rw [List.getElem_map]
    by_cases hid : ((db.products[i]).id == rev.product_id)
    · refine ⟨fun hne => absurd (beq_iff_eq.mp hid) hne, fun _ => ?_⟩
      simp [hid]
    · refine ⟨fun hne => by simp [hid], fun heq =>
        absurd (beq_iff_eq.mpr heq) hid⟩

theorem c8_witness :
    dbC3fin.users = dbC3.users ∧ dbC3fin.categories = dbC3.categories ∧
      dbC3fin.reviews.length = dbC3.reviews.length := by
  have h := c8_delete_review_frame buyerW 1 dbC3 dbC3mid dbC3fin revW
    (by decide)
  exact ⟨h.1, h.2.1, h.2.2.1⟩

/-! ## C9: update_user has no principal -/

/-- **C9.** `update_user` declares no authentication dependency, so the
embedded operation takes no token or principal: for any existing user row —
active or not — the call succeeds and replaces the row's email, password
digest and role with the caller-supplied values. -/
theorem c9_update_user_unauthenticated (uid : Nat)
    (email password role : String) (db : DB) (user : User)
    (hmem : user ∈ db.users) (hid : user.id = uid) :
    ∃ db2 ret, update_user uid email password role db = .ok (db2, ret) ∧
      ret.email = email ∧ ret.hashed_password = hash_password password ∧
      ret.role = role := by
  have hsome : (db.users.find? (fun u => u.id == uid)).isSome := by
    rw [List.find?_isSome]
    exact ⟨user, hmem, by simp [hid]⟩
  obtain ⟨u0, hf⟩ := Option.isSome_iff_exists.mp hsome
  refine ⟨⟨db.users.map (fun u =>
      if u.id == uid then ⟨u.id, email, hash_password password, role, u.is_active⟩
      else u), db.products, db.reviews, db.categories⟩,
    ⟨u0.id, email, hash_password password, role, u0.is_active⟩,
    ?_, rfl, rfl, rfl⟩
  unfold update_user
  rw [hf]

theorem c9_witness :
    ∃ db2 ret, update_user 9 "new@x" "pw" "admin" dbC7 = .ok (db2, ret) ∧
      ret.email = "new@x" ∧ ret.hashed_password = hash_password "pw" ∧
      ret.role = "admin" :=
  c9_update_user_unauthenticated 9 "new@x" "pw" "admin" dbC7 userOff
    (by decide) rfl

/-! ## C10: no one-review-per-buyer-per-product rule -/

theorem create_review_ok_find {cu : User} {pid : Nat} {g : Int}
    {c : Option String} {db : DB} {x : DB × Review}
    (h : create_review cu pid g c db = .ok x) :
    ∃ p0, db.products.find? (fun p => p.id == pid && p.is_active) = some p0 := by
  unfold create_review at h
  split at h
  · exact absurd h (by simp)
  · rename_i p0 hf
    exact ⟨p0, hf⟩

/-- The rating-update write set preserves each product's id and active
flag, so the product-existence check of a later `create_review` sees the
same rows. -/
theorem find_product_after_rating_update (l : List Product) (pid qid : Nat)
    (avg : Rat) (p0 : Product)
    (hf : l.find? (fun p => p.id == qid && p.is_active) = some p0) :
    ∃ p1, (l.map (fun p => if p.id == pid then { p with rating := avg }
                           else p)).find?
        (fun p => p.id == qid && p.is_active) = some p1 := by
  rw [List.find?_map]
  have hpred : ∀ q : Product,
      (((fun p => p.id == qid && p.is_active) ∘
        (fun p => if p.id == pid then { p with rating := avg } else p)) q)
        = ((fun p : Product => p.id == qid && p.is_active) q) := by
    intro q
    by_cases hq : q.id = pid <;> simp [hq]
  rw [funext hpred, hf]
  exact ⟨_, rfl⟩

/-- `create_review_body` stores exactly the recomputed mean on every product
row whose id matches. -/
theorem create_review_body_rating (cu : User) (pid : Nat) (g : Int)
    (c : Option String) (db : DB) :
    ∀ p ∈ (create_review_body cu pid g c db).1.products, p.id = pid →
      p.rating = meanOrZero (create_review_body cu pid g c db).1 pid := by
  intro p hp hid
  unfold create_review_body at hp ⊢
  have := rating_after_update _ pid _ p hp hid
  rw [this, avgOrZero_eq_meanOrZero]
  exact meanOrZero_congr pid rfl

theorem activeGrades_of_append (l1 l2 : List Review) (pid : Nat)
    (db db2 : DB) (h1 : db.reviews = l1) (h2 : db2.reviews = l1 ++ l2) :
    activeGrades db2 pid =
      activeGrades db pid ++
        ((l2.filter (fun r => r.product_id == pid && r.is_active)).map
          (fun r => r.grade)) := by
  unfold activeGrades
  rw [h1, h2, List.filter_append, List.map_append]

/-- **C10.** `create_review` enforces no one-review-per-buyer-per-product
rule: whenever a buyer's `create_review` for a product succeeds, an immediate
second call by the same buyer for the same product succeeds as well, both
created rows carry the buyer's id, the active-grade multiset of the product
gains both submitted grades, and the product's stored rating is the mean over
that enlarged multiset. -/
theorem c10_second_review_accepted_and_counted (cu : User) (pid : Nat)
    (g1 g2 : Int) (c1 c2 : Option String) (db db1 : DB) (r1 : Review)
    (h1 : create_review cu pid g1 c1 db = .ok (db1, r1)) :
    ∃ db2 r2, create_review cu pid g2 c2 db1 = .ok (db2, r2) ∧
      r1.user_id = cu.id ∧ r2.user_id = cu.id ∧
      activeGrades db2 pid = (activeGrades db pid ++ [g1]) ++ [g2] ∧
      ∀ p ∈ db2.products, p.id = pid → p.rating = meanOrZero db2 pid := by
  obtain ⟨p0, hf0⟩ := create_review_ok_find h1
  have hb1 := create_review_ok h1
  have hdb1 : db1 = (create_review_body cu pid g1 c1 db).1 :=
    congrArg Prod.fst hb1
  have hr1 : r1 = (create_review_body cu pid g1 c1 db).2 :=
    congrArg Prod.snd hb1
  obtain ⟨p1, hf1⟩ : ∃ p1, db1.products.find?
      (fun p => p.id == pid && p.is_active) = some p1 := by
    rw [hdb1]
    exact find_product_after_rating_update db.products pid pid _ p0 hf0
  refine ⟨(create_review_body cu pid g2 c2 db1).1,
    (create_review_body cu pid g2 c2 db1).2, ?_, ?_, rfl, ?_, ?_⟩
  · unfold create_review
    rw [hf1]
  · rw [hr1]; rfl
  · have hrevs1 : db1.reviews = db.reviews ++
        [(create_review_body cu pid g1 c1 db).2] := by
      rw [hdb1]; rfl
    have hrevs2 : (create_review_body cu pid g2 c2 db1).1.reviews =
        db1.reviews ++ [(create_review_body cu pid g2 c2 db1).2] := rfl
    rw [hrevs1] at hrevs2
    rw [List.append_assoc] at hrevs2
    have := activeGrades_of_append db.reviews
      ([(create_review_body cu pid g1 c1 db).2] ++
        [(create_review_body cu pid g2 c2 db1).2]) pid db
      (create_review_body cu pid g2 c2 db1).1 rfl hrevs2
    rw [this]
    simp [create_review_body, List.append_assoc]
  · exact create_review_body_rating cu pid g2 c2 db1

theorem c10_witness :
    ∃ db2 r2, create_review buyerW 1 4 none dbWafter = .ok (db2, r2) ∧
      revW.user_id = buyerW.id ∧ r2.user_id = buyerW.id ∧
      activeGrades db2 1 = (activeGrades dbW 1 ++ [5]) ++ [4] ∧
      ∀ p ∈ db2.products, p.id = 1 → p.rating = meanOrZero db2 1 :=
  c10_second_review_accepted_and_counted buyerW 1 5 4 none none dbW dbWafter
    revW
    (by norm_num [create_review, create_review_body, freshReviewId, avgOrZero,
      sqlAvg, activeGrades, intSum, dbW, dbWafter, buyerW, prodW, revW])
